import Mathlib

/-!
Verification of the two batch pipelines of this repository
(`Inferring/inferring.py` and `Summarizing/summury_transform.py`).

The scripts are shallowly embedded: Python string operations become
executable Lean functions on `List Char` (wrapped for `String`), the
external text-generation service becomes an explicit oracle argument
(`history → prompt → response`, fallible variants return `Except`),
and the CSV file becomes a list of rows, each row a list of cells.
The fixed inter-record `time.sleep(20)` has no observable effect in
this model and is omitted.
-/

namespace GenAiPipelines

/-! ### Python string primitives

Modelled over the ASCII whitespace set that these input files use;
`str.split(sep)` / `str.replace(old, new)` scan left to right and skip
the matched separator, which is encoded with a fuel argument equal to
the length of the scanned list so that every function is structurally
recursive and computable. -/

/-- Python `str.strip()` whitespace set (ASCII part). -/
def isPyWs (c : Char) : Bool :=
  c = ' ' || c = '\t' || c = '\n' || c = '\r' || c = '\x0b' || c = '\x0c'

/-- Python `str.strip()` on a list of characters. -/
def pyStripL (l : List Char) : List Char :=
  ((l.dropWhile isPyWs).reverse.dropWhile isPyWs).reverse

/-- Python `str.strip()`. -/
def pyStripS (s : String) : String :=
  String.mk (pyStripL s.data)

/-- Fuelled core of Python `str.split(sep)` for a non-empty literal
separator: at each position, if `sep` matches, cut and resume after the
match, otherwise extend the current piece by one character. -/
def pySplitFuel (sep : List Char) : Nat → List Char → List (List Char)
  | _, [] => [[]]
  | 0, l => [l]
  | fuel + 1, c :: cs =>
    if sep.isPrefixOf (c :: cs) then
      [] :: pySplitFuel sep fuel (List.drop (sep.length - 1) cs)
    else
      match pySplitFuel sep fuel cs with
      | [] => [[]]
      | p :: ps => (c :: p) :: ps

/-- Python `s.split(sep)` on lists of characters. -/
def pySplitL (sep l : List Char) : List (List Char) :=
  pySplitFuel sep l.length l

/-- Python `s.split(sep)`. -/
def pySplitS (s sep : String) : List String :=
  (pySplitL sep.data s.data).map String.mk

/-- Fuelled core of Python `str.replace(old, new)` for non-empty `old`:
left-to-right scan, each non-overlapping match replaced and skipped. -/
def pyReplaceFuel (old new : List Char) : Nat → List Char → List Char
  | _, [] => []
  | 0, l => l
  | fuel + 1, c :: cs =>
    if old.isPrefixOf (c :: cs) then
      new ++ pyReplaceFuel old new fuel (List.drop (old.length - 1) cs)
    else
      c :: pyReplaceFuel old new fuel cs

/-- Python `s.replace(old, new)` on lists of characters. -/
def pyReplaceL (old new l : List Char) : List Char :=
  pyReplaceFuel old new l.length l

/-- Python `s.replace(old, new)`. -/
def pyReplaceS (s old new : String) : String :=
  String.mk (pyReplaceL old.data new.data s.data)

/-- Python substring test `pat in s` on lists of characters. -/
def hasSubstrL (pat : List Char) : List Char → Bool
  | [] => pat.isEmpty
  | c :: cs => pat.isPrefixOf (c :: cs) || hasSubstrL pat cs

/-- Python substring test `pat in s`. -/
def hasSubstrS (pat s : String) : Bool :=
  hasSubstrL pat.data s.data

/-- Python `str.lower()` (ASCII part). -/
def pyLowerS (s : String) : String :=
  String.mk (s.data.map Char.toLower)

/-- Number of positions of `l` at which `sep` occurs as a substring. -/
def occCountL (sep : List Char) : List Char → Nat
  | [] => 0
  | c :: cs => (if sep.isPrefixOf (c :: cs) then 1 else 0) + occCountL sep cs

/-- Number of occurrences of `sep` in `s`. -/
def occCountS (sep s : String) : Nat :=
  occCountL sep.data s.data

/-- Python `x or dflt` for strings: the empty string is falsy. -/
def pyOr (s dflt : String) : String :=
  if s = "" then dflt else s

/-! ### External service oracle

A chat session is its history, a list of (prompt, response) pairs; the
service is an oracle from the history and the prompt to the response
text. `Svc` is the total oracle used for runs that complete; `FSvc`
may fail, modelling an exception raised by `send_message`. -/

/-- Total oracle: response as a function of chat history and prompt. -/
abbrev Svc : Type :=
  List (String × String) → String → String

/-- Fallible oracle: a call may raise, carrying an error message. -/
abbrev FSvc : Type :=
  List (String × String) → String → Except String String

/-! ### Reviews pipeline (`Inferring/inferring.py`) -/

/-- The sentiment prompt built in `analyze_sentiment_and_generate_message`. -/
def sentiment_prompt (body : String) : String :=
  "Analyze the sentiment of the following review. Respond with only \x27positive\x27 or \x27negative\x27:\n\n" ++ body ++ "\n"

/-- The thank-you prompt of the positive branch. -/
def thank_you_prompt (body : String) : String :=
  "Generate a short thank-you message for this positive review:\n\n" ++ body ++ "\n"

/-- The apology prompt of the negative branch. -/
def apology_prompt (body : String) : String :=
  "Generate a short apology message for this negative review:\n\n" ++ body ++ "\n"

/-- The branch on `"positive" in sentiment_response.lower()` choosing the
follow-up prompt (lines 45-48 of `inferring.py`). -/
def select_message_prompt (body sentiment_response : String) : String :=
  if hasSubstrS "positive" (pyLowerS sentiment_response) then thank_you_prompt body
  else apology_prompt body

/-- The item prompt built in `extract_item_and_company`. -/
def item_prompt (body : String) : String :=
  "Identify the purchased item in the following review. Respond with only the item name:\n\n" ++ body ++ "\n"

/-- The company prompt built in `extract_item_and_company`. -/
def company_prompt (body : String) : String :=
  "Identify the company name in the following review. Respond with only the company name:\n\n" ++ body ++ "\n"

/-- `analyze_sentiment_and_generate_message`: one chat session, the
sentiment prompt sent on empty history, then the follow-up prompt sent in
the same session (history now holds the first exchange); returns the
stripped sentiment text and the stripped response message. -/
def analyze_sentiment_and_generate_message (svc : Svc) (body : String) :
    String × String :=
  let p1 := sentiment_prompt body
  let r1 := svc [] p1
  let sentiment_response := pyStripS r1
  let message_prompt := select_message_prompt body sentiment_response
  let response_message := pyStripS (svc [(p1, r1)] message_prompt)
  (sentiment_response, response_message)

/-- `extract_item_and_company`: one chat session, item prompt then company
prompt, each stripped response defaulted to `"unknown"` when empty via
Python `or`. -/
def extract_item_and_company (svc : Svc) (body : String) : String × String :=
  let p1 := item_prompt body
  let r1 := svc [] p1
  let item_response := pyOr (pyStripS r1) "unknown"
  let r2 := svc [(p1, r1)] (company_prompt body)
  let company_response := pyOr (pyStripS r2) "unknown"
  (item_response, company_response)

/-- `read_reviews`: strip the file content and split on `"END"`.  The file
content stands in for the file path. -/
def read_reviews (content : String) : List String :=
  pySplitS (pyStripS content) "END"

/-- One processed review row (the dict built in `process_reviews`). -/
structure ReviewRow where
  item : String
  company : String
  sentiment : String
  response_message : String
deriving DecidableEq

/-- The body of the `process_reviews` loop for one review. -/
def process_one_review (svcE svcA : Svc) (review : String) : ReviewRow :=
  let body := pyStripS review
  let ic := extract_item_and_company svcE body
  let sm := analyze_sentiment_and_generate_message svcA body
  ⟨ic.1, ic.2, sm.1, sm.2⟩

/-- `process_reviews`: every element of the split is processed, in order.
`svcE` is the oracle behind the extraction model, `svcA` the one behind
the sentiment model (the script configures two model instances). -/
def process_reviews (svcE svcA : Svc) (review_content : List String) :
    List ReviewRow :=
  review_content.map (process_one_review svcE svcA)

/-- `write_reviews_to_csv`: header row then one row per review, as a list
of rows of cells. -/
def write_reviews_to_csv (reviews : List ReviewRow) : List (List String) :=
  ["Item", "Company", "Sentiment", "Response Message"] ::
    reviews.map (fun r => [r.item, r.company, r.sentiment, r.response_message])

/-- `main` of `inferring.py`: read, process, write. -/
def reviews_run (content : String) (svcE svcA : Svc) : List (List String) :=
  write_reviews_to_csv (process_reviews svcE svcA (read_reviews content))

/-! ### Email pipeline (`Summarizing/summury_transform.py`) -/

/-- The summary prompt built in `summarize_email`. -/
def summary_prompt (body : String) : String :=
  "Summarize the following email in short:\n\n" ++ body ++ "\n"

/-- The translation prompt built in `translate_to_hindi`. -/
def translate_prompt (text : String) : String :=
  "Translate the following text to Hindi:\n\n" ++ text ++ "\n"

/-- `summarize_email`: a fresh chat session, one prompt, stripped reply. -/
def summarize_email (svc : Svc) (body : String) : String :=
  pyStripS (svc [] (summary_prompt body))

/-- `translate_to_hindi`: a fresh chat session, one prompt, stripped reply. -/
def translate_to_hindi (svc : Svc) (text : String) : String :=
  pyStripS (svc [] (translate_prompt text))

/-- One parsed email (the dict built in `read_emails`; the source keys
`from`, `to`, `subject` are the variables `from_line` …). -/
structure Email where
  from_line : String
  to_line : String
  subject_line : String
  body : String
deriving DecidableEq

/-- `email_content` of `read_emails`: strip the file content, split on
`"END"`. -/
def email_record_blocks (content : String) : List String :=
  pySplitS (pyStripS content) "END"

/-- The body of the `read_emails` loop for one block: strip, split into
lines, skip blocks with fewer than 4 lines, else strip the known prefixes
off the first three lines and join `lines[4:]` (with `"Body:\n"` removed
and the result stripped) as the body. -/
def parse_email_block (email : String) : Option Email :=
  let lines := pySplitS (pyStripS email) "\n"
  if lines.length < 4 then none
  else some
    { from_line := pyStripS (pyReplaceS (lines.getD 0 "") "From: " "")
      to_line := pyStripS (pyReplaceS (lines.getD 1 "") "To: " "")
      subject_line := pyStripS (pyReplaceS (lines.getD 2 "") "Subject: " "")
      body := pyStripS (pyReplaceS (String.intercalate "\n" (lines.drop 4)) "Body:\n" "") }

/-- `read_emails`: parsed emails of the accepted blocks, in order. -/
def read_emails (content : String) : List Email :=
  (email_record_blocks content).filterMap parse_email_block

/-- The body of the `process_emails` loop for one email: summary, then
translation of the summary, producing one CSV row in the fieldnames
order From, To, Subject, Summary, Translated Summary. -/
def process_one_email (svcS svcT : Svc) (email : Email) : List String :=
  let summary := summarize_email svcS email.body
  let translated_summary := translate_to_hindi svcT summary
  [email.from_line, email.to_line, email.subject_line, summary, translated_summary]

/-- The `processed_emails` list of `process_emails`. -/
def processed_emails (content : String) (svcS svcT : Svc) : List (List String) :=
  (read_emails content).map (process_one_email svcS svcT)

/-- `save_to_csv`: header row (the fieldnames) then the data rows. -/
def save_to_csv (data : List (List String)) (fieldnames : List String) :
    List (List String) :=
  fieldnames :: data

/-- `process_emails` end to end: read, enrich, save. -/
def emails_run (content : String) (svcS svcT : Svc) : List (List String) :=
  save_to_csv (processed_emails content svcS svcT)
    ["From", "To", "Subject", "Summary", "Translated Summary"]

/-! ### Send-event instrumentation

For the conversational-context claims: the same call sequences as above,
but recording, for each `send_message` call site, the session history at
the moment of the call together with the prompt sent. -/

/-- The history and prompt of one `send_message` call. -/
structure SendEvent where
  history : List (String × String)
  prompt : String
deriving DecidableEq

/-- Send events of `analyze_sentiment_and_generate_message`: both prompts
go through the single `chat_session` started at line 41, so the second
send sees the first exchange in its history. -/
def analyze_send_events (svc : Svc) (body : String) : List SendEvent :=
  let p1 := sentiment_prompt body
  let r1 := svc [] p1
  let p2 := select_message_prompt body (pyStripS r1)
  [⟨[], p1⟩, ⟨[(p1, r1)], p2⟩]

/-- Send events of `extract_item_and_company`: both prompts go through the
single `chat_session` started at line 75. -/
def extract_send_events (svc : Svc) (body : String) : List SendEvent :=
  let p1 := item_prompt body
  let r1 := svc [] p1
  [⟨[], p1⟩, ⟨[(p1, r1)], company_prompt body⟩]

/-- All send events issued for one review record, in call order
(extraction first, then sentiment analysis, as in `process_reviews`). -/
def review_record_send_events (svcE svcA : Svc) (review : String) :
    List SendEvent :=
  let body := pyStripS review
  extract_send_events svcE body ++ analyze_send_events svcA body

/-- All send events issued for one email record: `summarize_email` and
`translate_to_hindi` each start a fresh chat session. -/
def email_record_send_events (svcS svcT : Svc) (email : Email) :
    List SendEvent :=
  let summary := summarize_email svcS email.body
  [⟨[], summary_prompt email.body⟩, ⟨[], translate_prompt summary⟩]

/-! ### Fallible runs

The same pipelines with an oracle that may raise: both scripts have no
`try`/`except`, so the first error aborts processing and the writer is
never reached; an `Except.ok` value is the complete written CSV, an
`Except.error` is a run that terminated with the uncaught error. -/

/-- `extract_item_and_company` under a fallible service. -/
def extract_item_and_companyE (svc : FSvc) (body : String) :
    Except String (String × String) :=
  match svc [] (item_prompt body) with
  | .error e => .error e
  | .ok r1 =>
    match svc [(item_prompt body, r1)] (company_prompt body) with
    | .error e => .error e
    | .ok r2 => .ok (pyOr (pyStripS r1) "unknown", pyOr (pyStripS r2) "unknown")

/-- `analyze_sentiment_and_generate_message` under a fallible service. -/
def analyze_sentiment_and_generate_messageE (svc : FSvc) (body : String) :
    Except String (String × String) :=
  match svc [] (sentiment_prompt body) with
  | .error e => .error e
  | .ok r1 =>
    match svc [(sentiment_prompt body, r1)] (select_message_prompt body (pyStripS r1)) with
    | .error e => .error e
    | .ok r2 => .ok (pyStripS r1, pyStripS r2)

/-- One review record under a fallible service. -/
def process_one_reviewE (svcE svcA : FSvc) (review : String) :
    Except String ReviewRow :=
  let body := pyStripS review
  match extract_item_and_companyE svcE body with
  | .error e => .error e
  | .ok ic =>
    match analyze_sentiment_and_generate_messageE svcA body with
    | .error e => .error e
    | .ok sm => .ok ⟨ic.1, ic.2, sm.1, sm.2⟩

/-- The `process_reviews` loop under a fallible service: records strictly
in order, the first error aborts the loop. -/
def process_reviewsE (svcE svcA : FSvc) : List String → Except String (List ReviewRow)
  | [] => .ok []
  | review :: rest =>
    match process_one_reviewE svcE svcA review with
    | .error e => .error e
    | .ok row =>
      match process_reviewsE svcE svcA rest with
      | .error e => .error e
      | .ok rows => .ok (row :: rows)

/-- `main` of `inferring.py` under a fallible service: the CSV is written
only when every record processed without error. -/
def reviews_runE (content : String) (svcE svcA : FSvc) :
    Except String (List (List String)) :=
  match process_reviewsE svcE svcA (read_reviews content) with
  | .error e => .error e
  | .ok reviews => .ok (write_reviews_to_csv reviews)

/-- One email record under a fallible service. -/
def process_one_emailE (svcS svcT : FSvc) (email : Email) :
    Except String (List String) :=
  match svcS [] (summary_prompt email.body) with
  | .error e => .error e
  | .ok rs =>
    let summary := pyStripS rs
    match svcT [] (translate_prompt summary) with
    | .error e => .error e
    | .ok rt =>
      .ok [email.from_line, email.to_line, email.subject_line, summary, pyStripS rt]

/-- The `process_emails` loop under a fallible service. -/
def process_emailsE (svcS svcT : FSvc) : List Email → Except String (List (List String))
  | [] => .ok []
  | email :: rest =>
    match process_one_emailE svcS svcT email with
    | .error e => .error e
    | .ok row =>
      match process_emailsE svcS svcT rest with
      | .error e => .error e
      | .ok rows => .ok (row :: rows)

/-- `process_emails` end to end under a fallible service. -/
def emails_runE (content : String) (svcS svcT : FSvc) :
    Except String (List (List String)) :=
  match process_emailsE svcS svcT (read_emails content) with
  | .error e => .error e
  | .ok rows =>
    .ok (save_to_csv rows ["From", "To", "Subject", "Summary", "Translated Summary"])

/-! ### Auxiliary definitions for the statements -/

/-- The delimiter as a character list. -/
def sepEND : List Char := ['E', 'N', 'D']

/-- The body of an email record as the specification words it: the plain
join of the remaining lines after skipping one line past the first three
(for comparison against what `read_emails` actually computes). -/
def spec_claimed_body (block : String) : String :=
  String.intercalate "\n" ((pySplitS (pyStripS block) "\n").drop 4)

/-- A service stub answering every prompt with whitespace only. -/
def blankSvc : Svc := fun _ _ => "   "

/-- A service stub answering every prompt with `"r"`. -/
def constSvc : Svc := fun _ _ => "r"

/-- A fallible service stub that raises on every call. -/
def errSvc : FSvc := fun _ _ => .error "boom"

/-! ### Helper lemmas -/

theorem pySplitFuel_ne_nil (sep : List Char) :
    ∀ (f : Nat) (l : List Char), pySplitFuel sep f l ≠ []
  | _, [] => by simp [pySplitFuel]
  | 0, _ :: _ => by simp [pySplitFuel]
  | f + 1, c :: cs => by
    unfold pySplitFuel
    split
    · simp
    · split <;> simp

theorem pySplitFuel_congr (sep : List Char) :
    ∀ (f₁ f₂ : Nat) (l : List Char), l.length ≤ f₁ → l.length ≤ f₂ →
      pySplitFuel sep f₁ l = pySplitFuel sep f₂ l
  | _, _, [], _, _ => by simp [pySplitFuel]
  | 0, _, c :: cs, h₁, _ => by simp at h₁
  | _ + 1, 0, c :: cs, _, h₂ => by simp at h₂
  | f₁ + 1, f₂ + 1, c :: cs, h₁, h₂ => by
    simp only [List.length_cons] at h₁ h₂
    unfold pySplitFuel
    by_cases hp : sep.isPrefixOf (c :: cs) = true
    · rw [if_pos hp, if_pos hp]
      have hd : (List.drop (sep.length - 1) cs).length ≤ cs.length := by
        simp [List.length_drop]
      rw [pySplitFuel_congr sep f₁ f₂ (List.drop (sep.length - 1) cs)
        (by omega) (by omega)]
    · rw [if_neg hp, if_neg hp,
        pySplitFuel_congr sep f₁ f₂ cs (by omega) (by omega)]

theorem pySplitFuel_length_END :
    ∀ (f : Nat) (l : List Char), l.length ≤ f →
      (pySplitFuel sepEND f l).length = occCountL sepEND l + 1
  | _, [], _ => by simp [pySplitFuel, occCountL]
  | 0, c :: cs, h => by simp at h
  | f + 1, c :: cs, h => by
    by_cases hp : sepEND.isPrefixOf (c :: cs) = true
    · obtain ⟨t, ht⟩ : ∃ t, c :: cs = 'E' :: 'N' :: 'D' :: t := by
        rw [List.isPrefixOf_iff_prefix] at hp
        obtain ⟨t, ht⟩ := hp
        exact ⟨t, ht.symm⟩
      injection ht with hc hcs
      subst hc; subst hcs
      simp only [List.length_cons] at h
      unfold pySplitFuel
      rw [if_pos hp]
      have hdrop : List.drop (sepEND.length - 1) ('N' :: 'D' :: t) = t := by
        simp [sepEND]
      rw [hdrop]
      have hN : sepEND.isPrefixOf ('N' :: 'D' :: t) = false := by
        simp only [sepEND, List.isPrefixOf]
        rw [show ('E' == 'N') = false from rfl]
        simp
      have hD : sepEND.isPrefixOf ('D' :: t) = false := by
        simp only [sepEND, List.isPrefixOf]
        rw [show ('E' == 'D') = false from rfl]
        simp
      simp only [occCountL, hp, hN, hD, if_pos, if_neg, List.length_cons,
        Bool.false_eq_true, if_false, if_true]
      rw [pySplitFuel_length_END f t (by omega)]
      omega
    · simp only [List.length_cons] at h
      unfold pySplitFuel
      rw [if_neg hp]
      obtain ⟨p, ps, hps⟩ : ∃ p ps, pySplitFuel sepEND f cs = p :: ps := by
        rcases he : pySplitFuel sepEND f cs with _ | ⟨p, ps⟩
        · exact absurd he (pySplitFuel_ne_nil sepEND f cs)
        · exact ⟨p, ps, rfl⟩
      rw [hps]
      have := pySplitFuel_length_END f cs (by omega)
      rw [hps] at this
      simp only [occCountL, hp, Bool.false_eq_true, if_false, List.length_cons] at this ⊢
      omega

theorem pySplitFuel_append_END :
    ∀ (f : Nat) (l : List Char), l.length + 3 ≤ f →
      pySplitFuel sepEND f (l ++ sepEND) = pySplitFuel sepEND f l ++ [[]]
  | 0, l, h => by simp at h
  | f + 1, [], _ => by
    show pySplitFuel sepEND (f + 1) ('E' :: 'N' :: 'D' :: []) =
      pySplitFuel sepEND (f + 1) [] ++ [[]]
    have hp : sepEND.isPrefixOf ('E' :: 'N' :: 'D' :: []) = true := by
      rw [List.isPrefixOf_iff_prefix]
      exact ⟨[], by simp [sepEND]⟩
    unfold pySplitFuel
    rw [if_pos hp]
    simp [sepEND, pySplitFuel]
  | f + 1, c :: cs, h => by
    simp only [List.length_cons] at h
    by_cases hp : sepEND.isPrefixOf (c :: cs) = true
    · obtain ⟨t, ht⟩ : ∃ t, c :: cs = 'E' :: 'N' :: 'D' :: t := by
        rw [List.isPrefixOf_iff_prefix] at hp
        obtain ⟨t, ht⟩ := hp
        exact ⟨t, ht.symm⟩
      injection ht with hc hcs
      subst hc; subst hcs
      simp only [List.length_cons] at h
      have hp' : sepEND.isPrefixOf ('E' :: ('N' :: 'D' :: t) ++ sepEND) = true := by
        rw [List.isPrefixOf_iff_prefix]
        exact ⟨t ++ sepEND, by simp [sepEND]⟩
      show pySplitFuel sepEND (f + 1) ('E' :: ('N' :: 'D' :: t ++ sepEND)) =
        pySplitFuel sepEND (f + 1) ('E' :: 'N' :: 'D' :: t) ++ [[]]
      unfold pySplitFuel
      rw [if_pos (by simpa using hp'), if_pos hp]
      have hd1 : List.drop (sepEND.length - 1) ('N' :: 'D' :: t ++ sepEND) = t ++ sepEND := by
        simp [sepEND]
      have hd2 : List.drop (sepEND.length - 1) ('N' :: 'D' :: t) = t := by
        simp [sepEND]
      rw [hd1, hd2, pySplitFuel_append_END f t (by omega)]
      simp
    · have hp' : sepEND.isPrefixOf (c :: (cs ++ sepEND)) = false := by
        match cs with
        | [] =>
          simp only [List.nil_append, sepEND, List.isPrefixOf]
          rw [show ('N' == 'E') = false from rfl]
          simp
        | [d] =>
          simp only [List.cons_append, List.nil_append, sepEND, List.isPrefixOf]
          rw [show ('D' == 'E') = false from rfl]
          simp
        | d :: d' :: cs'' =>
          have heq : sepEND.isPrefixOf (c :: d :: d' :: (cs'' ++ sepEND)) =
              sepEND.isPrefixOf (c :: d :: d' :: cs'') := by
            simp [sepEND, List.isPrefixOf]
          show sepEND.isPrefixOf (c :: d :: d' :: (cs'' ++ sepEND)) = false
          rw [heq]
          cases hb : sepEND.isPrefixOf (c :: d :: d' :: cs'') with
          | false => rfl
          | true => exact absurd hb hp
      show pySplitFuel sepEND (f + 1) (c :: (cs ++ sepEND)) =
        pySplitFuel sepEND (f + 1) (c :: cs) ++ [[]]
      unfold pySplitFuel
      rw [if_neg (by intro hco; rw [hco] at hp'; simp at hp'), if_neg hp]
      obtain ⟨p, ps, hps⟩ : ∃ p ps, pySplitFuel sepEND f cs = p :: ps := by
        rcases he : pySplitFuel sepEND f cs with _ | ⟨p, ps⟩
        · exact absurd he (pySplitFuel_ne_nil sepEND f cs)
        · exact ⟨p, ps, rfl⟩
      rw [pySplitFuel_append_END f cs (by omega), hps]
      simp

theorem pySplitL_append_END (l : List Char) :
    pySplitL sepEND (l ++ sepEND) = pySplitL sepEND l ++ [[]] := by
  unfold pySplitL
  rw [pySplitFuel_append_END ((l ++ sepEND).length) l (by simp [sepEND])]
  rw [pySplitFuel_congr sepEND (l ++ sepEND).length l.length l (by simp) le_rfl]

theorem pyReplaceFuel_id :
    ∀ (old new : List Char) (f : Nat) (l : List Char),
      hasSubstrL old l = false → pyReplaceFuel old new f l = l
  | _, _, _, [], _ => by simp [pyReplaceFuel]
  | _, _, 0, c :: cs, _ => by simp [pyReplaceFuel]
  | old, new, f + 1, c :: cs, h => by
    have h' : old.isPrefixOf (c :: cs) = false ∧ hasSubstrL old cs = false := by
      simpa [hasSubstrL] using h
    unfold pyReplaceFuel
    rw [if_neg (by simp [h'.1])]
    rw [pyReplaceFuel_id old new f cs h'.2]

theorem pyReplaceS_id (s old new : String) (h : hasSubstrS old s = false) :
    pyReplaceS s old new = s := by
  unfold pyReplaceS pyReplaceL
  rw [pyReplaceFuel_id old.data new.data s.data.length s.data h]

theorem pySplitS_END_length (s : String) :
    (pySplitS s "END").length = occCountS "END" s + 1 := by
  unfold pySplitS pySplitL occCountS
  rw [List.length_map]
  exact pySplitFuel_length_END s.data.length s.data le_rfl

theorem pySplitS_END_getLast (x s : String) (h : s = x ++ "END") :
    (pySplitS s "END").getLast? = some "" := by
  unfold pySplitS
  rw [h]
  have hd : pySplitL "END".data (x ++ "END").data = pySplitL sepEND (x.data ++ sepEND) := by
    rw [String.data_append]
    rfl
  rw [hd, pySplitL_append_END, List.map_append]
  rw [show List.map String.mk [([] : List Char)] = [""] from rfl]
  exact List.getLast?_concat _

theorem process_reviewsE_shape (svcE svcA : FSvc) :
    ∀ rs : List String,
      (∃ e, process_reviewsE svcE svcA rs = .error e) ∨
      (∃ rows, process_reviewsE svcE svcA rs = .ok rows ∧ rows.length = rs.length)
  | [] => Or.inr ⟨[], rfl, rfl⟩
  | r :: rs => by
    unfold process_reviewsE
    cases hr : process_one_reviewE svcE svcA r with
    | error e => exact Or.inl ⟨e, rfl⟩
    | ok row =>
      rcases process_reviewsE_shape svcE svcA rs with ⟨e, he⟩ | ⟨rows, hok, hlen⟩
      · rw [he]
        exact Or.inl ⟨e, rfl⟩
      · rw [hok]
        exact Or.inr ⟨row :: rows, rfl, by simp [hlen]⟩

theorem process_reviewsE_abort (svcE svcA : FSvc) :
    ∀ (rs₁ : List String) (r : String) (rs₂ : List String) (e : String),
      (∀ r' ∈ rs₁, ∃ row, process_one_reviewE svcE svcA r' = .ok row) →
      process_one_reviewE svcE svcA r = .error e →
      process_reviewsE svcE svcA (rs₁ ++ r :: rs₂) = .error e
  | [], r, rs₂, e, _, hr => by
    show process_reviewsE svcE svcA (r :: rs₂) = .error e
    unfold process_reviewsE
    rw [hr]
  | r' :: rs₁, r, rs₂, e, hall, hr => by
    obtain ⟨row, hrow⟩ := hall r' (List.mem_cons_self r' rs₁)
    have ih := process_reviewsE_abort svcE svcA rs₁ r rs₂ e
      (fun x hx => hall x (List.mem_cons_of_mem r' hx)) hr
    show process_reviewsE svcE svcA (r' :: (rs₁ ++ r :: rs₂)) = .error e
    unfold process_reviewsE
    rw [hrow, ih]

theorem process_emailsE_shape (svcS svcT : FSvc) :
    ∀ es : List Email,
      (∃ e, process_emailsE svcS svcT es = .error e) ∨
      (∃ rows, process_emailsE svcS svcT es = .ok rows ∧ rows.length = es.length)
  | [] => Or.inr ⟨[], rfl, rfl⟩
  | em :: es => by
    unfold process_emailsE
    cases hr : process_one_emailE svcS svcT em with
    | error e => exact Or.inl ⟨e, rfl⟩
    | ok row =>
      rcases process_emailsE_shape svcS svcT es with ⟨e, he⟩ | ⟨rows, hok, hlen⟩
      · rw [he]
        exact Or.inl ⟨e, rfl⟩
      · rw [hok]
        exact Or.inr ⟨row :: rows, rfl, by simp [hlen]⟩

theorem process_emailsE_abort (svcS svcT : FSvc) :
    ∀ (es₁ : List Email) (em : Email) (es₂ : List Email) (e : String),
      (∀ em' ∈ es₁, ∃ row, process_one_emailE svcS svcT em' = .ok row) →
      process_one_emailE svcS svcT em = .error e →
      process_emailsE svcS svcT (es₁ ++ em :: es₂) = .error e
  | [], em, es₂, e, _, hr => by
    show process_emailsE svcS svcT (em :: es₂) = .error e
    unfold process_emailsE
    rw [hr]
  | em' :: es₁, em, es₂, e, hall, hr => by
    obtain ⟨row, hrow⟩ := hall em' (List.mem_cons_self em' es₁)
    have ih := process_emailsE_abort svcS svcT es₁ em es₂ e
      (fun x hx => hall x (List.mem_cons_of_mem em' hx)) hr
    show process_emailsE svcS svcT (em' :: (es₁ ++ em :: es₂)) = .error e
    unfold process_emailsE
    rw [hrow, ih]

/-! ### Claims -/

/-- Claim C1: in the reviews pipeline, after the sentiment call the
follow-up prompt is the thank-you prompt exactly when the lowercased
sentiment response contains the substring "positive"; every other
response (empty, malformed, refusal) selects the apology prompt, and the
two prompts are distinct. -/
theorem claim_c1_followup_prompt (body s : String) :
    (select_message_prompt body s = thank_you_prompt body ↔
      hasSubstrS "positive" (pyLowerS s) = true) ∧
    (hasSubstrS "positive" (pyLowerS s) = false →
      select_message_prompt body s = apology_prompt body) ∧
    thank_you_prompt body ≠ apology_prompt body := by
  have hne : thank_you_prompt body ≠ apology_prompt body := by
    intro heq
    have hlen := congrArg String.length heq
    simp only [thank_you_prompt, apology_prompt, String.length_append] at hlen
    have hp : ("Generate a short thank-you message for this positive review:\n\n" : String).length ≠
        ("Generate a short apology message for this negative review:\n\n" : String).length := by
      decide
    omega
  cases hb : hasSubstrS "positive" (pyLowerS s) with
  | true =>
    have hsel : select_message_prompt body s = thank_you_prompt body := by
      simp [select_message_prompt, hb]
    refine ⟨⟨fun _ => rfl, fun _ => hsel⟩, fun hf => ?_, hne⟩
    simp at hf
  | false =>
    have hsel : select_message_prompt body s = apology_prompt body := by
      simp [select_message_prompt, hb]
    refine ⟨⟨fun h => ?_, fun h => ?_⟩, fun _ => hsel, hne⟩
    · rw [hsel] at h
      exact absurd h.symm hne
    · simp at h

/-- Witness for C1: a response without "positive" yields the apology
prompt; a response containing "Positive" yields the thank-you prompt. -/
theorem claim_c1_followup_prompt_witness :
    select_message_prompt "b" "NEGATIVE" = apology_prompt "b" ∧
    select_message_prompt "b" " It was Positive " = thank_you_prompt "b" :=
  ⟨(claim_c1_followup_prompt "b" "NEGATIVE").2.1 (by decide),
   (claim_c1_followup_prompt "b" " It was Positive ").1.mpr (by decide)⟩

/-- Claim C4: both record readers split the whitespace-stripped content on
the literal token "END": the number of blocks equals the number of
occurrences plus one, and with no occurrence there is exactly one block. -/
theorem claim_c4_record_reader_split (content : String) :
    (read_reviews content).length = occCountS "END" (pyStripS content) + 1 ∧
    (email_record_blocks content).length = occCountS "END" (pyStripS content) + 1 ∧
    (occCountS "END" (pyStripS content) = 0 →
      (read_reviews content).length = 1 ∧ (email_record_blocks content).length = 1) := by
  have h1 : (pySplitS (pyStripS content) "END").length =
      occCountS "END" (pyStripS content) + 1 :=
    pySplitS_END_length (pyStripS content)
  refine ⟨h1, h1, fun h0 => ⟨?_, ?_⟩⟩
  · show (pySplitS (pyStripS content) "END").length = 1
    omega
  · show (pySplitS (pyStripS content) "END").length = 1
    omega

/-- Witness for C4: a delimiter-free input yields a single record in both
pipelines. -/
theorem claim_c4_record_reader_split_witness :
    (read_reviews "ab").length = 1 ∧ (email_record_blocks "ab").length = 1 :=
  (claim_c4_record_reader_split "ab").2.2 (by decide)

/-- Claim C5: in the reviews pipeline a whitespace-only (hence empty after
stripping) item or company response becomes the literal "unknown"; the
email pipeline passes the stripped response through with no fallback,
empty included. -/
theorem claim_c5_unknown_fallback (body : String) (svcE svcS : Svc) :
    (pyStripS (svcE [] (item_prompt body)) = "" →
      (extract_item_and_company svcE body).1 = "unknown") ∧
    (pyStripS (svcE [(item_prompt body, svcE [] (item_prompt body))] (company_prompt body)) = "" →
      (extract_item_and_company svcE body).2 = "unknown") ∧
    summarize_email svcS body = pyStripS (svcS [] (summary_prompt body)) ∧
    (pyStripS (svcS [] (summary_prompt body)) = "" → summarize_email svcS body = "") := by
  refine ⟨fun h => ?_, fun h => ?_, rfl, fun h => h⟩
  · simp [extract_item_and_company, pyOr, h]
  · simp [extract_item_and_company, pyOr, h]

/-- Witness for C5: a whitespace-answering service yields "unknown" for
item and company, and the empty string for the email summary. -/
theorem claim_c5_unknown_fallback_witness :
    (extract_item_and_company blankSvc "b").1 = "unknown" ∧
    (extract_item_and_company blankSvc "b").2 = "unknown" ∧
    summarize_email blankSvc "b" = "" :=
  ⟨(claim_c5_unknown_fallback "b" blankSvc blankSvc).1 (by decide),
   (claim_c5_unknown_fallback "b" blankSvc blankSvc).2.1 (by decide),
   (claim_c5_unknown_fallback "b" blankSvc blankSvc).2.2.2 (by decide)⟩

/-- Claim C2: the data rows of the output are at most the records of the
delimiter split (equality for reviews, an inequality for emails), and an
email record whose stripped block has fewer than 4 lines is excluded,
returning no row and surfacing no error. -/
theorem claim_c2_row_count_bound (content : String) (svcE svcA svcS svcT : Svc) :
    List.drop 1 (emails_run content svcS svcT) = processed_emails content svcS svcT ∧
    (processed_emails content svcS svcT).length ≤ (email_record_blocks content).length ∧
    List.drop 1 (reviews_run content svcE svcA) =
      (read_reviews content).map
        (fun r => [(process_one_review svcE svcA r).item,
          (process_one_review svcE svcA r).company,
          (process_one_review svcE svcA r).sentiment,
          (process_one_review svcE svcA r).response_message]) ∧
    (process_reviews svcE svcA (read_reviews content)).length = (read_reviews content).length ∧
    (∀ block ∈ email_record_blocks content,
      (pySplitS (pyStripS block) "\n").length < 4 → parse_email_block block = none) := by
  refine ⟨rfl, ?_, ?_, ?_, ?_⟩
  · unfold processed_emails read_emails
    rw [List.length_map]
    exact List.length_filterMap_le _ _
  · show List.drop 1 (write_reviews_to_csv (process_reviews svcE svcA (read_reviews content))) = _
    unfold write_reviews_to_csv process_reviews
    simp [List.map_map]
  · unfold process_reviews
    exact List.length_map _ _
  · intro block _ hlt
    unfold parse_email_block
    rw [if_pos hlt]

/-- Witness for C2: a one-line record is silently dropped by the email
parser. -/
theorem claim_c2_row_count_bound_witness :
    parse_email_block "short" = none :=
  (claim_c2_row_count_bound "short" blankSvc blankSvc blankSvc blankSvc).2.2.2.2
    "short" (by decide) (by decide)

/-- Claim C6: every run that reaches the writer emits the declared header
row first, in the declared column order, whatever the number of data rows
(zero included: an input whose only record is malformed yields a
header-only email CSV). -/
theorem claim_c6_header_row (content : String) (svcE svcA svcS svcT : Svc) :
    (reviews_run content svcE svcA).head? =
      some ["Item", "Company", "Sentiment", "Response Message"] ∧
    (reviews_run content svcE svcA).length =
      (process_reviews svcE svcA (read_reviews content)).length + 1 ∧
    (emails_run content svcS svcT).head? =
      some ["From", "To", "Subject", "Summary", "Translated Summary"] ∧
    (emails_run content svcS svcT).length =
      (processed_emails content svcS svcT).length + 1 ∧
    emails_run "x" svcS svcT =
      [["From", "To", "Subject", "Summary", "Translated Summary"]] := by
  refine ⟨rfl, ?_, rfl, rfl, rfl⟩
  show (write_reviews_to_csv (process_reviews svcE svcA (read_reviews content))).length = _
  unfold write_reviews_to_csv
  simp

/-- Claim C9: the reviews pipeline drops no record: one output row per
split element in order, so the row count is the number of "END"
occurrences plus one, and an input ending in "END" yields a trailing
empty record that is still processed into a final row. -/
theorem claim_c9_reviews_never_drop (content : String) (svcE svcA : Svc) :
    process_reviews svcE svcA (read_reviews content) =
      (read_reviews content).map (process_one_review svcE svcA) ∧
    (process_reviews svcE svcA (read_reviews content)).length =
      occCountS "END" (pyStripS content) + 1 ∧
    (∀ x, pyStripS content = x ++ "END" →
      (read_reviews content).getLast? = some "" ∧
      (process_reviews svcE svcA (read_reviews content)).getLast? =
        some (process_one_review svcE svcA "")) := by
  refine ⟨rfl, ?_, fun x hx => ?_⟩
  · unfold process_reviews
    rw [List.length_map]
    exact pySplitS_END_length (pyStripS content)
  · have hl : (read_reviews content).getLast? = some "" :=
      pySplitS_END_getLast x (pyStripS content) hx
    refine ⟨hl, ?_⟩
    unfold process_reviews
    rw [List.getLast?_map, hl]
    rfl

/-- Witness for C9: an input ending in "END" yields a trailing empty
record processed like any other. -/
theorem claim_c9_reviews_never_drop_witness :
    (read_reviews "aENDbEND").getLast? = some "" ∧
    (process_reviews constSvc constSvc (read_reviews "aENDbEND")).getLast? =
      some (process_one_review constSvc constSvc "") :=
  (claim_c9_reviews_never_drop "aENDbEND" constSvc constSvc).2.2 "aENDb" (by decide)

/-- Claim C7: with no error handling in either script, a run either
terminates with the first uncaught service error and produces no output
at all, or completes and writes the full CSV (header plus one row per
processed record); a record's failure aborts the loop no matter how many
records already succeeded, so no partial output exists. -/
theorem claim_c7_error_aborts_run (content : String) (svcE svcA svcS svcT : FSvc) :
    ((∃ e, reviews_runE content svcE svcA = .error e) ∨
      (∃ t, reviews_runE content svcE svcA = .ok t ∧
        t.length = (read_reviews content).length + 1)) ∧
    ((∃ e, emails_runE content svcS svcT = .error e) ∨
      (∃ t, emails_runE content svcS svcT = .ok t ∧
        t.length = (read_emails content).length + 1)) ∧
    (∀ (rs₁ : List String) (r : String) (rs₂ : List String) (e : String),
      (∀ r' ∈ rs₁, ∃ row, process_one_reviewE svcE svcA r' = .ok row) →
      process_one_reviewE svcE svcA r = .error e →
      process_reviewsE svcE svcA (rs₁ ++ r :: rs₂) = .error e) ∧
    (∀ (es₁ : List Email) (em : Email) (es₂ : List Email) (e : String),
      (∀ em' ∈ es₁, ∃ row, process_one_emailE svcS svcT em' = .ok row) →
      process_one_emailE svcS svcT em = .error e →
      process_emailsE svcS svcT (es₁ ++ em :: es₂) = .error e) := by
  refine ⟨?_, ?_, process_reviewsE_abort svcE svcA, process_emailsE_abort svcS svcT⟩
  · rcases process_reviewsE_shape svcE svcA (read_reviews content) with
      ⟨e, he⟩ | ⟨rows, hok, hlen⟩
    · refine Or.inl ⟨e, ?_⟩
      unfold reviews_runE
      rw [he]
    · refine Or.inr ⟨write_reviews_to_csv rows, ?_, ?_⟩
      · unfold reviews_runE
        rw [hok]
      · simp [write_reviews_to_csv, hlen]
  · rcases process_emailsE_shape svcS svcT (read_emails content) with
      ⟨e, he⟩ | ⟨rows, hok, hlen⟩
    · refine Or.inl ⟨e, ?_⟩
      unfold emails_runE
      rw [he]
    · refine Or.inr ⟨save_to_csv rows ["From", "To", "Subject", "Summary", "Translated Summary"], ?_, ?_⟩
      · unfold emails_runE
        rw [hok]
      · simp [save_to_csv, hlen]

/-- Witness for C7: an always-raising service aborts both loops with the
raised error on a first record. -/
theorem claim_c7_error_aborts_run_witness :
    process_reviewsE errSvc errSvc ["a"] = .error "boom" ∧
    process_emailsE errSvc errSvc [⟨"f", "t", "s", "b"⟩] = .error "boom" :=
  ⟨(claim_c7_error_aborts_run "" errSvc errSvc errSvc errSvc).2.2.1
      [] "a" [] "boom" (by simp) (by rfl),
   (claim_c7_error_aborts_run "" errSvc errSvc errSvc errSvc).2.2.2
      [] ⟨"f", "t", "s", "b"⟩ [] "boom" (by simp) (by rfl)⟩

/-- Claim C10: the email parser validates no prefix: any block of at least
4 lines is accepted; a first line not containing "From: " is used whole
(stripped) as the field; and the prefix is removed at every occurrence in
the line, not only at its start (shown on a doubled and a mid-line
occurrence). -/
theorem claim_c10_no_prefix_validation (block : String)
    (h4 : 4 ≤ (pySplitS (pyStripS block) "\n").length) :
    (parse_email_block block).isSome = true ∧
    (hasSubstrS "From: " ((pySplitS (pyStripS block) "\n").getD 0 "") = false →
      (parse_email_block block).map Email.from_line =
        some (pyStripS ((pySplitS (pyStripS block) "\n").getD 0 ""))) ∧
    (read_emails "From: alice From: bob\nTo: t\nSubject: s\nBody:\nhello").map
      Email.from_line = ["alice bob"] ∧
    (read_emails "sender From: alice\nTo: t\nSubject: s\nBody:\nhello").map
      Email.from_line = ["sender alice"] ∧
    (read_emails "alice\nbob\nnews\nBody:\nhello").map Email.from_line = ["alice"] := by
  have hno : ¬ (pySplitS (pyStripS block) "\n").length < 4 := by omega
  refine ⟨?_, fun hnf => ?_, rfl, rfl, rfl⟩
  · unfold parse_email_block
    rw [if_neg hno]
    rfl
  · unfold parse_email_block
    rw [if_neg hno]
    show some (pyStripS (pyReplaceS ((pySplitS (pyStripS block) "\n").getD 0 "") "From: " "")) =
      some (pyStripS ((pySplitS (pyStripS block) "\n").getD 0 ""))
    rw [pyReplaceS_id _ _ _ hnf]

/-- Witness for C10: a 5-line block without any "From: " is accepted and
its first line is used whole as the sender field. -/
theorem claim_c10_no_prefix_validation_witness :
    (parse_email_block "a\nb\nc\nBody:\nx").isSome = true ∧
    (parse_email_block "a\nb\nc\nBody:\nx").map Email.from_line = some "a" :=
  ⟨(claim_c10_no_prefix_validation "a\nb\nc\nBody:\nx" (by decide)).1,
   (claim_c10_no_prefix_validation "a\nb\nc\nBody:\nx" (by decide)).2.1 (by decide)⟩

/-- Claim C3 counterexample: the parsed body is not the plain join of the
lines after the skipped one — `read_emails` additionally removes
`"Body:\n"` occurrences and strips, so a record whose fifth line is a
second "Body:" marker gets body "x" where the claim demands "Body:\nx". -/
theorem claim_c3_counterexample :
    (read_emails "From: a\nTo: b\nSubject: c\nBody:\nBody:\nx").map Email.body = ["x"] ∧
    spec_claimed_body "From: a\nTo: b\nSubject: c\nBody:\nBody:\nx" = "Body:\nx" ∧
    ("x" : String) ≠ "Body:\nx" := by
  refine ⟨rfl, rfl, by decide⟩

/-- Claim C3 amended: for a record of at least 4 lines, the three fields
are the first three lines with every occurrence of their prefix removed
and stripped, the fourth line is skipped unconditionally, and the body is
the join of the remaining lines with occurrences of "Body:\n" removed and
the result stripped; it equals the plain join whenever that join contains
no "Body:\n" and is already stripped. -/
theorem claim_c3_email_fields (block : String)
    (h4 : 4 ≤ (pySplitS (pyStripS block) "\n").length) :
    parse_email_block block = some
      { from_line := pyStripS (pyReplaceS ((pySplitS (pyStripS block) "\n").getD 0 "") "From: " "")
        to_line := pyStripS (pyReplaceS ((pySplitS (pyStripS block) "\n").getD 1 "") "To: " "")
        subject_line := pyStripS (pyReplaceS ((pySplitS (pyStripS block) "\n").getD 2 "") "Subject: " "")
        body := pyStripS (pyReplaceS (spec_claimed_body block) "Body:\n" "") } ∧
    (hasSubstrS "Body:\n" (spec_claimed_body block) = false →
      pyStripS (spec_claimed_body block) = spec_claimed_body block →
      (parse_email_block block).map Email.body = some (spec_claimed_body block)) := by
  have hno : ¬ (pySplitS (pyStripS block) "\n").length < 4 := by omega
  have hparse : parse_email_block block = some
      { from_line := pyStripS (pyReplaceS ((pySplitS (pyStripS block) "\n").getD 0 "") "From: " "")
        to_line := pyStripS (pyReplaceS ((pySplitS (pyStripS block) "\n").getD 1 "") "To: " "")
        subject_line := pyStripS (pyReplaceS ((pySplitS (pyStripS block) "\n").getD 2 "") "Subject: " "")
        body := pyStripS (pyReplaceS (spec_claimed_body block) "Body:\n" "") } := by
    unfold parse_email_block
    rw [if_neg hno]
    rfl
  refine ⟨hparse, fun hB hs => ?_⟩
  rw [hparse]
  show some (pyStripS (pyReplaceS (spec_claimed_body block) "Body:\n" "")) =
    some (spec_claimed_body block)
  rw [pyReplaceS_id _ _ _ hB, hs]

/-- Witness for the amended C3: a well-formed record parses to its fields
and its body equals the plain join of the section after "Body:". -/
theorem claim_c3_email_fields_witness :
    parse_email_block "From: a\nTo: b\nSubject: c\nBody:\nhello" =
      some ⟨"a", "b", "c", "hello"⟩ ∧
    (parse_email_block "From: a\nTo: b\nSubject: c\nBody:\nhello").map Email.body =
      some (spec_claimed_body "From: a\nTo: b\nSubject: c\nBody:\nhello") := by
  have h := claim_c3_email_fields "From: a\nTo: b\nSubject: c\nBody:\nhello" (by decide)
  exact ⟨h.1.trans (by decide), h.2 (by decide) (by decide)⟩

/-- Claim C8 counterexample: not every prompt is sent on an empty
conversation history — in the reviews pipeline the second prompt of each
enrichment function reuses the session that already holds the first
exchange. -/
theorem claim_c8_counterexample :
    (review_record_send_events constSvc constSvc "x").all
      (fun ev => ev.history.isEmpty) = false := by
  rfl

/-- Claim C8 amended: the email pipeline sends every prompt on an empty
history; in the reviews pipeline each enrichment function opens its chat
with empty history, and any non-empty history at a send consists exactly
of the same function's first exchange for the same record body — no
memory crosses functions or records. -/
theorem claim_c8_fresh_context (review : String) (email : Email)
    (svcE svcA svcS svcT : Svc) :
    (∀ ev ∈ email_record_send_events svcS svcT email, ev.history = []) ∧
    (extract_send_events svcE (pyStripS review)).head? =
      some ⟨[], item_prompt (pyStripS review)⟩ ∧
    (analyze_send_events svcA (pyStripS review)).head? =
      some ⟨[], sentiment_prompt (pyStripS review)⟩ ∧
    (∀ ev ∈ review_record_send_events svcE svcA review,
      ev.history = [] ∨
      ev.history = [(item_prompt (pyStripS review), svcE [] (item_prompt (pyStripS review)))] ∨
      ev.history = [(sentiment_prompt (pyStripS review), svcA [] (sentiment_prompt (pyStripS review)))]) := by
  refine ⟨?_, rfl, rfl, ?_⟩
  · intro ev hv
    simp [email_record_send_events] at hv
    rcases hv with rfl | rfl
    · rfl
    · rfl
  · intro ev hv
    simp [review_record_send_events, extract_send_events, analyze_send_events] at hv
    rcases hv with rfl | rfl | rfl | rfl
    · exact Or.inl rfl
    · exact Or.inr (Or.inl rfl)
    · exact Or.inl rfl
    · exact Or.inr (Or.inr rfl)

/-- Witness for the amended C8: the summary prompt of an email record is
sent on an empty history. -/
theorem claim_c8_fresh_context_witness :
    SendEvent.history ⟨[], summary_prompt "b"⟩ = [] :=
  (claim_c8_fresh_context "x" ⟨"f", "t", "s", "b"⟩ blankSvc blankSvc blankSvc blankSvc).1
    ⟨[], summary_prompt "b"⟩ (by decide)

end GenAiPipelines
